import Mathlib

/-!
Verification of the safe-ts-env configuration loader.

The repository exports a single operation (under two names,
getStackProps in src/index.ts and getEnv in the compiled duplicate)
that resolves a path specification with the platform join primitive,
synchronously reads the file at that path, converts the raw buffer to
a structured value via the buffer toJSON capability, validates the
result against a caller-supplied zod object schema, and returns a
shallow-spread copy of the validated value; on any failure it
optionally logs one diagnostic line (gated on the process-wide DEBUG
environment variable) and rethrows the original error unchanged.

The embedding below models JavaScript values relevant to the pipeline
(Json), zod object-schema validation (zodParse), the Node buffer
toJSON conversion (bufferToJSON), and the loader itself as a pure
function from an explicit environment of external collaborators
(path join, file read, DEBUG variable) to a result record that also
carries the traces of the observable effects: which argument lists
were passed to join, which paths were read, and which diagnostic
lines were logged.
-/

/-- Structured JavaScript values flowing through the loader. -/
inductive Json where
  | str (s : String)
  | num (n : Int)
  | boolean (b : Bool)
  | arr (xs : List Json)
  | obj (fields : List (String × Json))
deriving Repr

/-- Primitive field types expressible in the zod object schemas the
tests and documentation use. -/
inductive FieldType where
  | string
  | number
  | boolean
deriving Repr, DecidableEq

/-- A zod object schema: ordered required fields with their types. -/
abbrev Schema := List (String × FieldType)

/-- One structured validation diagnostic: the path of the failing
field and a message, as zod issues carry. -/
structure ZodIssue where
  path : List String
  message : String
deriving Repr, DecidableEq

/-- Errors a JavaScript invocation of the loader can propagate:
either the error thrown by the file-read primitive or a zod
validation error carrying its issues. -/
inductive JsErr where
  | fsError (message : String)
  | zodError (issues : List ZodIssue)
deriving Repr, DecidableEq

/-- Does a value conform to a primitive field type. -/
def checkField : FieldType → Json → Bool
  | .string, .str _ => true
  | .number, .num _ => true
  | .boolean, .boolean _ => true
  | _, _ => false

/-- The issue (if any) a schema entry contributes when validating the
field list of an object input: missing fields are Required, present
fields of the wrong shape are Invalid type; conforming fields
contribute none. -/
def fieldIssue (fs : List (String × Json)) (entry : String × FieldType) :
    Option ZodIssue :=
  match fs.lookup entry.1 with
  | none => some ⟨[entry.1], "Required"⟩
  | some v => if checkField entry.2 v then none else some ⟨[entry.1], "Invalid type"⟩

/-- The validated projection of an object field list through a
schema: the schema fields, in schema order, with their values from
the input (unknown input fields are stripped, the default zod object
policy). -/
def projectFields (schema : Schema) (fs : List (String × Json)) :
    List (String × Json) :=
  schema.filterMap fun entry => (fs.lookup entry.1).map fun v => (entry.1, v)

/-- zod object-schema validation, the parse contract of
z.object(...): a non-object input fails immediately; an object input
collects one issue per non-conforming required field and fails with
all of them, or succeeds with the validated projection. -/
def zodParse (schema : Schema) (input : Json) : Except JsErr Json :=
  match input with
  | .obj fs =>
    let issues := schema.filterMap (fieldIssue fs)
    if issues.isEmpty then .ok (.obj (projectFields schema fs))
    else .error (.zodError issues)
  | _ => .error (.zodError [⟨[], "Expected object, received other"⟩])

/-- The field list of the Node Buffer toJSON conversion: a type field
holding the string Buffer and a data field holding the array of byte
values. -/
def bufferJSONFields (bytes : List Nat) : List (String × Json) :=
  [("type", .str "Buffer"), ("data", .arr (bytes.map fun b => .num b))]

/-- The Node Buffer toJSON conversion: a buffer of bytes converts to
the object with a type field holding the string Buffer and a data
field holding the array of byte values, not to a parsed JSON
document. -/
def bufferToJSON (bytes : List Nat) : Json :=
  .obj (bufferJSONFields bytes)

/-- The JavaScript object-spread copy applied to the validated value.
On an object it rebuilds a fresh object with the same own fields; the
loader only ever spreads the output of an object-schema parse, which
is always an object. -/
def spreadObj : Json → Json
  | .obj fs => .obj fs
  | _ => .obj []

/-- The location argument of the loader: a single path string or an
ordered sequence of path segments. -/
inductive PathSpec where
  | single (s : String)
  | segments (xs : List String)

/-- The argument list handed to the join primitive: a string location
is passed as the sole argument, an array location is spread. -/
def specArgs : PathSpec → List String
  | .single s => [s]
  | .segments xs => xs

/-- The external collaborators of one invocation: the path-join
primitive, the synchronous file-read primitive (returning the raw
bytes or failing), and the process-wide DEBUG environment variable
(absent, or set to a string). -/
structure Env where
  joinFn : List String → String
  readFn : String → Except JsErr (List Nat)
  DEBUG : Option String

/-- JavaScript truthiness of an environment-variable value: unset is
falsy, a set value is truthy exactly when it is a non-empty string. -/
def envTruthy : Option String → Bool
  | none => false
  | some s => s != ""

/-- The fixed prefix of the diagnostic log line. -/
def loadErrMsg : String := "Error loading env file:"

/-- The diagnostic lines the catch block emits for an error: exactly
one line carrying the fixed prefix and the original error when DEBUG
is truthy, and none otherwise. -/
def debugLogs (d : Option String) (err : JsErr) : List (String × JsErr) :=
  if envTruthy d then [(loadErrMsg, err)] else []

/-- The outcome of one invocation: the returned value or propagated
error, together with the traces of the observable effects (diagnostic
log lines, paths passed to the read primitive, argument lists passed
to the join primitive). -/
structure LoadResult where
  result : Except JsErr Json
  logs : List (String × JsErr)
  readCalls : List String
  joinCalls : List (List String)
deriving Repr

/-- getStackProps from src/index.ts: join the location (spreading an
array location, passing a string location as one argument), read the
file at the joined path, convert the buffer with toJSON, parse the
conversion with the schema, and return a spread copy of the parse
output; on any failure, log once when DEBUG is truthy and rethrow the
original error. -/
def getStackProps (env : Env) (pathOfEnvFile : PathSpec) (envSchema : Schema) :
    LoadResult :=
  let args := specArgs pathOfEnvFile
  let path := env.joinFn args
  match env.readFn path with
  | .error err =>
    { result := .error err, logs := debugLogs env.DEBUG err
      readCalls := [path], joinCalls := [args] }
  | .ok envFile =>
    match zodParse envSchema (bufferToJSON envFile) with
    | .error err =>
      { result := .error err, logs := debugLogs env.DEBUG err
        readCalls := [path], joinCalls := [args] }
    | .ok envObj =>
      { result := .ok (spreadObj envObj), logs := []
        readCalls := [path], joinCalls := [args] }

/-- getEnv from the compiled duplicate package (unnamed/part_002):
the same pipeline, transcribed independently from that file. -/
def getEnv (env : Env) (pathOfEnvFile : PathSpec) (envSchema : Schema) :
    LoadResult :=
  let args := specArgs pathOfEnvFile
  let path := env.joinFn args
  match env.readFn path with
  | .error err =>
    { result := .error err, logs := debugLogs env.DEBUG err
      readCalls := [path], joinCalls := [args] }
  | .ok envFile =>
    match zodParse envSchema (bufferToJSON envFile) with
    | .error err =>
      { result := .error err, logs := debugLogs env.DEBUG err
        readCalls := [path], joinCalls := [args] }
    | .ok envObj =>
      { result := .ok (spreadObj envObj), logs := []
        readCalls := [path], joinCalls := [args] }

/-! Concrete collaborators for witnesses. -/

/-- A concrete join primitive: segments joined with a slash. -/
def joinSlash (xs : List String) : String := String.intercalate "/" xs

/-- The Scenario A file content, the JSON text of the documented
success example. -/
def scenarioAContent : String :=
  "\x7b\"name\":\"svc\",\"region\":\"us-east-1\"\x7d"

/-- The Scenario A file content as raw bytes. -/
def scenarioABytes : List Nat := scenarioAContent.data.map Char.toNat

/-- The Scenario A schema: name and region, both required strings. -/
def scenarioASchema : Schema := [("name", .string), ("region", .string)]

/-- A filesystem in which every read returns the Scenario A bytes. -/
def scenarioAEnv : Env :=
  { joinFn := joinSlash, readFn := fun _ => .ok scenarioABytes, DEBUG := none }

/-- C1: the documented Scenario A fails on the code as written. The
loader hands the schema the Buffer toJSON conversion of the raw
bytes, the object with fields type and data, so validation reports
name and region as missing instead of returning the parsed object;
this evaluation exhibits the divergence between the code and its own
documentation and tests. -/
theorem scenarioA_fails_with_missing_fields :
    (getStackProps scenarioAEnv (.single "env/prod.json") scenarioASchema).result
      = .error (.zodError [⟨["name"], "Required"⟩, ⟨["region"], "Required"⟩]) :=
  rfl

/-! Helper lemmas shared by the claim theorems. -/

theorem getStackProps_joinCalls (env : Env) (p : PathSpec) (schema : Schema) :
    (getStackProps env p schema).joinCalls = [specArgs p] := by
  unfold getStackProps
  cases hr : env.readFn (env.joinFn (specArgs p)) with
  | error err => simp [hr]
  | ok envFile =>
    cases hp : zodParse schema (bufferToJSON envFile) with
    | error err => simp [hr, hp]
    | ok v => simp [hr, hp]

theorem getStackProps_readCalls (env : Env) (p : PathSpec) (schema : Schema) :
    (getStackProps env p schema).readCalls = [env.joinFn (specArgs p)] := by
  unfold getStackProps
  cases hr : env.readFn (env.joinFn (specArgs p)) with
  | error err => simp [hr]
  | ok envFile =>
    cases hp : zodParse schema (bufferToJSON envFile) with
    | error err => simp [hr, hp]
    | ok v => simp [hr, hp]

theorem getStackProps_result_of_readError (env : Env) (p : PathSpec)
    (schema : Schema) (e : JsErr)
    (h : env.readFn (env.joinFn (specArgs p)) = .error e) :
    (getStackProps env p schema).result = .error e := by
  unfold getStackProps
  simp [h]

theorem zodParse_names_bad_field (schema : Schema) (fs : List (String × Json))
    (name : String) (ft : FieldType) (hmem : (name, ft) ∈ schema)
    (hbad : fs.lookup name = none
      ∨ ∃ v, fs.lookup name = some v ∧ checkField ft v = false) :
    ∃ issues, zodParse schema (.obj fs) = .error (.zodError issues)
      ∧ ∃ i ∈ issues, i.path = [name] := by
  have hfi : ∃ i, fieldIssue fs (name, ft) = some i ∧ i.path = [name] := by
    unfold fieldIssue
    rcases hbad with h | ⟨v, hv, hcf⟩
    · simp [h]
    · simp [hv, hcf]
  obtain ⟨i, hi, hip⟩ := hfi
  have hmemI : i ∈ schema.filterMap (fieldIssue fs) :=
    List.mem_filterMap.mpr ⟨(name, ft), hmem, hi⟩
  have hne : (schema.filterMap (fieldIssue fs)).isEmpty = false := by
    cases hl : schema.filterMap (fieldIssue fs) with
    | nil => rw [hl] at hmemI; cases hmemI
    | cons a l => simp
  refine ⟨schema.filterMap (fieldIssue fs), ?_, ⟨i, hmemI, hip⟩⟩
  unfold zodParse
  simp [hne]

theorem zodParse_ok_obj (schema : Schema) (j v : Json)
    (h : zodParse schema j = .ok v) : ∃ fs, v = .obj fs := by
  unfold zodParse at h
  cases j with
  | obj fs =>
    simp only at h
    split at h
    · exact ⟨projectFields schema fs, (Except.ok.injEq _ _).mp h |>.symm⟩
    · cases h
  | str s => cases h
  | num n => cases h
  | boolean b => cases h
  | arr xs => cases h

/-! Claim theorems. -/

/-- Claim C2: whenever the read primitive fails, the loader fails with
exactly the error the read primitive raised, unchanged by the catch
block; it never substitutes a default or empty value. -/
theorem read_error_propagates_unchanged (env : Env) (p : PathSpec)
    (schema : Schema) (e : JsErr)
    (h : env.readFn (env.joinFn (specArgs p)) = .error e) :
    (getStackProps env p schema).result = .error e :=
  getStackProps_result_of_readError env p schema e h

/-- Filesystem collaborator in which every read fails. -/
def enoentEnv : Env :=
  { joinFn := joinSlash
    readFn := fun _ => .error (.fsError "ENOENT"), DEBUG := none }

/-- Witness for claim C2 at a concrete failing filesystem. -/
theorem read_error_propagates_unchanged_witness :
    enoentEnv.readFn (enoentEnv.joinFn (specArgs (.single "non/existent/file")))
      = .error (.fsError "ENOENT")
    ∧ (getStackProps enoentEnv (.single "non/existent/file") scenarioASchema).result
      = .error (.fsError "ENOENT") :=
  ⟨rfl, read_error_propagates_unchanged enoentEnv (.single "non/existent/file")
    scenarioASchema (.fsError "ENOENT") rfl⟩

/-- Claim C3: on every failing invocation, the diagnostic log trace is
empty when the DEBUG variable is not truthy, and is exactly one line
carrying the fixed prefix and the propagated error when it is truthy. -/
theorem failure_logging_matches_debug_flag (env : Env) (p : PathSpec)
    (schema : Schema) (e : JsErr)
    (h : (getStackProps env p schema).result = .error e) :
    (getStackProps env p schema).logs
      = if envTruthy env.DEBUG then [(loadErrMsg, e)] else [] := by
  unfold getStackProps debugLogs at *
  cases hr : env.readFn (env.joinFn (specArgs p)) with
  | error err =>
    simp only [hr] at h ⊢
    simp at h
    subst h
    rfl
  | ok envFile =>
    cases hp : zodParse schema (bufferToJSON envFile) with
    | error err =>
      simp only [hr, hp] at h ⊢
      simp at h
      subst h
      rfl
    | ok v =>
      simp [hr, hp] at h

/-- Filesystem collaborator failing every read, with DEBUG set. -/
def debugEnoentEnv : Env :=
  { joinFn := joinSlash
    readFn := fun _ => .error (.fsError "ENOENT"), DEBUG := some "true" }

/-- Witness for claim C3: with DEBUG set to a truthy string and a
failing read, exactly one prefixed log line is emitted. -/
theorem failure_logging_matches_debug_flag_witness :
    (getStackProps debugEnoentEnv (.single "path/to/file") scenarioASchema).result
      = .error (.fsError "ENOENT")
    ∧ (getStackProps debugEnoentEnv (.single "path/to/file") scenarioASchema).logs
      = if envTruthy debugEnoentEnv.DEBUG
        then [(loadErrMsg, .fsError "ENOENT")] else [] :=
  ⟨rfl, failure_logging_matches_debug_flag debugEnoentEnv (.single "path/to/file")
    scenarioASchema (.fsError "ENOENT") rfl⟩

/-- Claim C4: an array location is spread into the join primitive (one
argument per segment, order preserved) and the read primitive receives
the joined path; a string location is passed to join as a single
argument and the read primitive receives its joined result. -/
theorem join_receives_location_arguments (env : Env) (xs : List String)
    (s : String) (schema : Schema) :
    (getStackProps env (.segments xs) schema).joinCalls = [xs]
    ∧ (getStackProps env (.segments xs) schema).readCalls = [env.joinFn xs]
    ∧ (getStackProps env (.single s) schema).joinCalls = [[s]]
    ∧ (getStackProps env (.single s) schema).readCalls = [env.joinFn [s]] :=
  ⟨getStackProps_joinCalls env (.segments xs) schema,
   getStackProps_readCalls env (.segments xs) schema,
   getStackProps_joinCalls env (.single s) schema,
   getStackProps_readCalls env (.single s) schema⟩

/-- Claim C5: when the structured value handed to validation is
missing a schema-required field, or holds a value of the wrong type at
it, the loader fails with a validation error containing an issue whose
path names that field, and returns no result. -/
theorem missing_or_mistyped_field_fails (env : Env) (p : PathSpec)
    (schema : Schema) (bytes : List Nat) (name : String) (ft : FieldType)
    (hread : env.readFn (env.joinFn (specArgs p)) = .ok bytes)
    (hmem : (name, ft) ∈ schema)
    (hbad : (bufferJSONFields bytes).lookup name = none
      ∨ ∃ v, (bufferJSONFields bytes).lookup name = some v
        ∧ checkField ft v = false) :
    ∃ issues, (getStackProps env p schema).result = .error (.zodError issues)
      ∧ ∃ i ∈ issues, i.path = [name] := by
  obtain ⟨issues, hp, hi⟩ :=
    zodParse_names_bad_field schema (bufferJSONFields bytes) name ft hmem hbad
  refine ⟨issues, ?_, hi⟩
  unfold getStackProps
  simp only [hread]
  rw [show bufferToJSON bytes = .obj (bufferJSONFields bytes) from rfl, hp]

/-- Witness for claim C5: the Scenario A schema requires region, which
the Buffer toJSON object lacks, so validation fails naming region. -/
theorem missing_or_mistyped_field_fails_witness :
    ("region", FieldType.string) ∈ scenarioASchema
    ∧ ∃ issues,
        (getStackProps scenarioAEnv (.single "env/prod.json") scenarioASchema).result
          = .error (.zodError issues)
        ∧ ∃ i ∈ issues, i.path = ["region"] :=
  ⟨by simp [scenarioASchema],
   missing_or_mistyped_field_fails scenarioAEnv (.single "env/prod.json")
     scenarioASchema scenarioABytes "region" .string rfl
     (by simp [scenarioASchema]) (Or.inl rfl)⟩

/-- Claim C6: when the structured value satisfies the schema, the
loader returns exactly the schema-validated projection produced by the
validation engine, passed through the shallow-spread copy, and on the
engine output (always an object) the spread copy preserves the value. -/
theorem valid_input_returns_validated_projection (env : Env) (p : PathSpec)
    (schema : Schema) (bytes : List Nat) (v : Json)
    (hread : env.readFn (env.joinFn (specArgs p)) = .ok bytes)
    (hparse : zodParse schema (bufferToJSON bytes) = .ok v) :
    (getStackProps env p schema).result = .ok (spreadObj v)
    ∧ spreadObj v = v := by
  constructor
  · unfold getStackProps
    simp [hread, hparse]
  · obtain ⟨fs, rfl⟩ := zodParse_ok_obj schema (bufferToJSON bytes) v hparse
    rfl

/-- A schema the Buffer toJSON object does satisfy: type as string. -/
def typeOnlySchema : Schema := [("type", .string)]

/-- Witness for claim C6 at a concrete valid input. -/
theorem valid_input_returns_validated_projection_witness :
    (getStackProps scenarioAEnv (.single "env/prod.json") typeOnlySchema).result
      = .ok (spreadObj (.obj [("type", .str "Buffer")]))
    ∧ spreadObj (.obj [("type", .str "Buffer")]) = .obj [("type", .str "Buffer")] :=
  valid_input_returns_validated_projection scenarioAEnv (.single "env/prod.json")
    typeOnlySchema scenarioABytes (.obj [("type", .str "Buffer")]) rfl rfl

/-- Claim C7: the two exported operations are equivalent: on every
environment of collaborators, every location and every schema they
produce the same result, the same failure and the same effect traces. -/
theorem getStackProps_eq_getEnv (env : Env) (p : PathSpec) (schema : Schema) :
    getStackProps env p schema = getEnv env p schema := rfl

/-- Claim C8: the only effects of an invocation are one join call with
the location arguments, one read of the joined path, and the optional
single debug log line, which appears exactly on failure with DEBUG
truthy and carries the fixed prefix and the propagated error; a
successful invocation logs nothing, and the environment record (debug
variable included) is never written. -/
theorem effects_limited_to_one_read_and_debug_log (env : Env) (p : PathSpec)
    (schema : Schema) :
    (getStackProps env p schema).joinCalls = [specArgs p]
    ∧ (getStackProps env p schema).readCalls = [env.joinFn (specArgs p)]
    ∧ (getStackProps env p schema).logs
        = match (getStackProps env p schema).result with
          | .ok _ => []
          | .error e => if envTruthy env.DEBUG then [(loadErrMsg, e)] else [] := by
  refine ⟨getStackProps_joinCalls env p schema,
    getStackProps_readCalls env p schema, ?_⟩
  unfold getStackProps debugLogs
  cases hr : env.readFn (env.joinFn (specArgs p)) with
  | error err => simp [hr]
  | ok envFile =>
    cases hp : zodParse schema (bufferToJSON envFile) with
    | error err => simp [hr, hp]
    | ok v => simp [hr, hp]

/-- Claim C9: an empty segment sequence is not rejected by the loader:
no input validation happens, the join primitive is called with zero
arguments, the read primitive is called on whatever path join returns,
and a failure of that read propagates as-is with no loader-specific
error. -/
theorem empty_segments_not_rejected (env : Env) (schema : Schema) (e : JsErr)
    (h : env.readFn (env.joinFn []) = .error e) :
    (getStackProps env (.segments []) schema).joinCalls = [[]]
    ∧ (getStackProps env (.segments []) schema).readCalls = [env.joinFn []]
    ∧ (getStackProps env (.segments []) schema).result = .error e :=
  ⟨getStackProps_joinCalls env (.segments []) schema,
   getStackProps_readCalls env (.segments []) schema,
   getStackProps_result_of_readError env (.segments []) schema e h⟩

/-- Witness for claim C9 at a concrete environment: join of zero
segments yields the empty string, which is read and fails. -/
theorem empty_segments_not_rejected_witness :
    (getStackProps enoentEnv (.segments []) scenarioASchema).joinCalls = [[]]
    ∧ (getStackProps enoentEnv (.segments []) scenarioASchema).readCalls
      = [enoentEnv.joinFn []]
    ∧ (getStackProps enoentEnv (.segments []) scenarioASchema).result
      = .error (.fsError "ENOENT") :=
  empty_segments_not_rejected enoentEnv scenarioASchema (.fsError "ENOENT") rfl

/-- Claim C10: invocations with the same location and schema, the same
debug-flag state, and collaborators that behave identically on the
arguments the call actually uses, produce identical outcomes: same
result, same logs, same effect traces. -/
theorem deterministic_under_equal_collaborators (env1 env2 : Env)
    (p : PathSpec) (schema : Schema)
    (hj : env1.joinFn (specArgs p) = env2.joinFn (specArgs p))
    (hr : env1.readFn (env1.joinFn (specArgs p))
      = env2.readFn (env2.joinFn (specArgs p)))
    (hd : env1.DEBUG = env2.DEBUG) :
    getStackProps env1 p schema = getStackProps env2 p schema := by
  obtain ⟨j1, r1, d1⟩ := env1
  obtain ⟨j2, r2, d2⟩ := env2
  dsimp only at hj hr hd
  subst hd
  unfold getStackProps
  dsimp only
  rw [hj] at hr ⊢
  rw [hr]

/-- A filesystem holding the Scenario A bytes exactly at path a/b. -/
def detEnvA : Env :=
  { joinFn := joinSlash
    readFn := fun path =>
      if path == "a/b" then .ok scenarioABytes else .error (.fsError "ENOENT")
    DEBUG := none }

/-- A second filesystem agreeing with the first only at path a/b. -/
def detEnvB : Env :=
  { joinFn := joinSlash
    readFn := fun path =>
      if path == "a/b" then .ok scenarioABytes else .error (.fsError "EACCES")
    DEBUG := none }

/-- Witness for claim C10: two environments that differ on unread
paths but agree on the call actually made yield identical outcomes. -/
theorem deterministic_under_equal_collaborators_witness :
    getStackProps detEnvA (.segments ["a", "b"]) scenarioASchema
      = getStackProps detEnvB (.segments ["a", "b"]) scenarioASchema :=
  deterministic_under_equal_collaborators detEnvA detEnvB
    (.segments ["a", "b"]) scenarioASchema rfl rfl rfl
